import Mathlib

/-! # Oberon Tiny QRSS Beacon: configuration header `BBTechATTiny85Config.h`

A shallow embedding of the user-configurable parameters of
`src/configuration/BBTechATTiny85Config.h`.  Every `#define` of the header that
carries a numeric or string value becomes a Lean constant of the same name, and
an object-like definition that expands to another name (`FSK_HIGH`,
`QRSS_BEACON_BASE_FREQ_HZ`) is kept as a reference to that name, so a change of
the underlying value propagates exactly as it does through the preprocessor.

Integer constants are natural numbers.  The suffixes of the header (`UL`,
`ULL`) name the unsigned 32-bit and 64-bit types of the ATtiny85 tool chain;
the theorems below that add or multiply constants also show that the result
stays below the modulus of the type the C expression is evaluated in, so that
the natural-number value is the machine value.
-/

namespace Oberon

/-! ## Identification strings -/

/-- Header line 28: `#define OBERON_CODE_VERSION "v0.02"`. -/
def OBERON_CODE_VERSION : String := "v0.02"

/-- Header line 29: `#define BOARDNAME " BBTechATTiny85"`. -/
def BOARDNAME : String := " BBTechATTiny85"

/-! ## Configuration parameters for the beacon -/

/-- Header line 44: `#define PARK_FREQ_HZ 108000000ULL`, the keep-warm frequency
put on clock `SI5351A_PARK_CLK_NUM`; the header comment documents "Max 109 Mhz". -/
def PARK_FREQ_HZ : Nat := 108000000

/-- Header line 47: `#define CW_BEACON_FREQ_HZ 14063000UL`, the fixed frequency
of the 12 wpm Morse beacon. -/
def CW_BEACON_FREQ_HZ : Nat := 14063000

/-- Header line 48: `#define CW_BEACON_MESSAGE "TEST TEST DE VE3WMB/B VE3WMB/B"`. -/
def CW_BEACON_MESSAGE : String := "TEST TEST DE VE3WMB/B VE3WMB/B"

/-! ## QRSS base frequencies per band (header lines 89-92) -/

/-- Header line 89: `#define QRSS_BASE_FREQUENCY_40m 7039800UL`. -/
def QRSS_BASE_FREQUENCY_40m : Nat := 7039800

/-- Header line 90: `#define QRSS_BASE_FREQUENCY_30m 10139900UL`; the window
"extends upwards 200hz - i.e. 10139900 to 10140100Hz". -/
def QRSS_BASE_FREQUENCY_30m : Nat := 10139900

/-- Header line 91: `#define QRSS_BASE_FREQUENCY_20m 14096800UL`. -/
def QRSS_BASE_FREQUENCY_20m : Nat := 14096800

/-- Header line 92: `#define QRSS_BASE_FREQUENCY_10m 28000700UL`. -/
def QRSS_BASE_FREQUENCY_10m : Nat := 28000700

/-! ## QRSS beacon parameters (header lines 50-60) -/

/-- Header line 51: `#define QRSS_BEACON_BASE_FREQ_HZ QRSS_BASE_FREQUENCY_30m`,
the band selection. -/
def QRSS_BEACON_BASE_FREQ_HZ : Nat := QRSS_BASE_FREQUENCY_30m

/-- Header line 52: `#define QRSS_BEACON_FREQ_OFFSET_HZ 10UL`, added to the base
frequency to give the actual QRSS transmit frequency. -/
def QRSS_BEACON_FREQ_OFFSET_HZ : Nat := 10

/-- Header line 53: `#define QRSS_MESSAGE "  VE3WMB "`; the header recommends
the callsign in capital letters with two spaces before and one after it. -/
def QRSS_MESSAGE : String := "  VE3WMB "

/-- Header line 54: `#define POST_TX_DELAY_MS 300000`, commented "Five minutes". -/
def POST_TX_DELAY_MS : Nat := 300000

/-- Header line 57: `#define QRSS_BEACON_FSK_OFFSET_HZ 4`, the FSKCW shift of
the dah above the dit. -/
def QRSS_BEACON_FSK_OFFSET_HZ : Nat := 4

/-- Header line 59: `#define FSK_HIGH QRSS_BEACON_FSK_OFFSET_HZ`. -/
def FSK_HIGH : Nat := QRSS_BEACON_FSK_OFFSET_HZ

/-- Header line 60: `#define FSK_LOW 0`. -/
def FSK_LOW : Nat := 0

/-! ## Si5351a configuration parameters (header lines 67-80) -/

/-- Header line 67: `#define SI5351A_PARK_CLK_NUM 1`, the clock output used for
the park feature; "This needs to be an unused clk port". -/
def SI5351A_PARK_CLK_NUM : Nat := 1

/-- Header line 69: `#define SI5351A_TX_CLK_NUM 0`, the clock output used for
the beacon transmission. -/
def SI5351A_TX_CLK_NUM : Nat := 0

/-- Header line 71: `#define SI5351BX_XTALPF 3`, crystal load capacitance code. -/
def SI5351BX_XTALPF : Nat := 3

/-- Header line 73: `#define SI5351BX_ADDR 0x60`, the I2C address. -/
def SI5351BX_ADDR : Nat := 0x60

/-- Header line 76: `#define SI5351BX_XTAL 2500000000ULL`, "Crystal freq in
centi Hz". -/
def SI5351BX_XTAL : Nat := 2500000000

/-- Header line 77: `#define SI5351BX_MSA 35`, "VCOA is at 25mhz*35 = 875mhz". -/
def SI5351BX_MSA : Nat := 35

/-- Header line 80: `#define SI5351A_CLK_FREQ_CORRECTION 11219`. -/
def SI5351A_CLK_FREQ_CORRECTION : Int := 11219

/-! ## Properties of the configured values -/

/-- Claim C1: the actual QRSS transmit frequency is
`QRSS_BEACON_BASE_FREQ_HZ + QRSS_BEACON_FREQ_OFFSET_HZ = 10139900 + 10 = 10139910` Hz,
and for each FSK offset `f` of `FSK_LOW`, `FSK_HIGH` the keyed tone
`QRSS_BEACON_BASE_FREQ_HZ + QRSS_BEACON_FREQ_OFFSET_HZ + f` lies in the 200 Hz
QRSS window of the selected (30 m) band, from `QRSS_BASE_FREQUENCY_30m` = 10139900
to `QRSS_BASE_FREQUENCY_30m + 200` = 10140100 Hz.  Both tones are below `2^32`, so
the 32-bit `unsigned long` sum of the target does not wrap. -/
theorem qrss_tones_in_30m_window :
    QRSS_BEACON_BASE_FREQ_HZ = 10139900 ∧ QRSS_BEACON_FREQ_OFFSET_HZ = 10 ∧
    QRSS_BEACON_BASE_FREQ_HZ + QRSS_BEACON_FREQ_OFFSET_HZ = 10139910 ∧
    QRSS_BEACON_BASE_FREQ_HZ = QRSS_BASE_FREQUENCY_30m ∧
    QRSS_BASE_FREQUENCY_30m = 10139900 ∧ QRSS_BASE_FREQUENCY_30m + 200 = 10140100 ∧
    (QRSS_BASE_FREQUENCY_30m ≤
        QRSS_BEACON_BASE_FREQ_HZ + QRSS_BEACON_FREQ_OFFSET_HZ + FSK_LOW ∧
      QRSS_BEACON_BASE_FREQ_HZ + QRSS_BEACON_FREQ_OFFSET_HZ + FSK_LOW ≤
        QRSS_BASE_FREQUENCY_30m + 200) ∧
    (QRSS_BASE_FREQUENCY_30m ≤
        QRSS_BEACON_BASE_FREQ_HZ + QRSS_BEACON_FREQ_OFFSET_HZ + FSK_HIGH ∧
      QRSS_BEACON_BASE_FREQ_HZ + QRSS_BEACON_FREQ_OFFSET_HZ + FSK_HIGH ≤
        QRSS_BASE_FREQUENCY_30m + 200) ∧
    QRSS_BEACON_BASE_FREQ_HZ + QRSS_BEACON_FREQ_OFFSET_HZ + FSK_LOW < 2 ^ 32 ∧
    QRSS_BEACON_BASE_FREQ_HZ + QRSS_BEACON_FREQ_OFFSET_HZ + FSK_HIGH < 2 ^ 32 := by
  decide

/-- Claim C2: the park (keep-warm) output uses a clock channel distinct from the
transmit channel, `SI5351A_PARK_CLK_NUM ≠ SI5351A_TX_CLK_NUM`, and both are valid
Si5351a clock numbers, each one of 0, 1, 2. -/
theorem park_clk_distinct_from_tx_clk :
    SI5351A_PARK_CLK_NUM ≠ SI5351A_TX_CLK_NUM ∧
    (SI5351A_PARK_CLK_NUM = 0 ∨ SI5351A_PARK_CLK_NUM = 1 ∨ SI5351A_PARK_CLK_NUM = 2) ∧
    (SI5351A_TX_CLK_NUM = 0 ∨ SI5351A_TX_CLK_NUM = 1 ∨ SI5351A_TX_CLK_NUM = 2) := by
  decide

/-- Claim C3: in FSKCW the dit is sent at the base transmit offset and the dah a
configured shift higher: `FSK_LOW = 0`, `FSK_HIGH = QRSS_BEACON_FSK_OFFSET_HZ`, the
shift satisfies `0 < FSK_HIGH - FSK_LOW < 5` (as integers, so the subtraction is
not truncated), the dah tone is strictly above the dit tone, and both tones fall
in the same 5 Hz station slot:
`(QRSS_BEACON_FREQ_OFFSET_HZ + FSK_LOW) / 5 = (QRSS_BEACON_FREQ_OFFSET_HZ + FSK_HIGH) / 5`
with floor division. -/
theorem fsk_shift_within_station_slot :
    FSK_LOW = 0 ∧ FSK_HIGH = QRSS_BEACON_FSK_OFFSET_HZ ∧
    (0 : Int) < (FSK_HIGH : Int) - (FSK_LOW : Int) ∧
    (FSK_HIGH : Int) - (FSK_LOW : Int) < 5 ∧
    QRSS_BEACON_BASE_FREQ_HZ + QRSS_BEACON_FREQ_OFFSET_HZ + FSK_LOW <
      QRSS_BEACON_BASE_FREQ_HZ + QRSS_BEACON_FREQ_OFFSET_HZ + FSK_HIGH ∧
    (QRSS_BEACON_FREQ_OFFSET_HZ + FSK_LOW) / 5 =
      (QRSS_BEACON_FREQ_OFFSET_HZ + FSK_HIGH) / 5 := by
  decide

/-- Claim C4: every output frequency the configuration can request, namely
`PARK_FREQ_HZ`, `CW_BEACON_FREQ_HZ`, and the two QRSS tones
`QRSS_BEACON_BASE_FREQ_HZ + QRSS_BEACON_FREQ_OFFSET_HZ + FSK_LOW` and
`QRSS_BEACON_BASE_FREQ_HZ + QRSS_BEACON_FREQ_OFFSET_HZ + FSK_HIGH`, is greater than
0 Hz and at most 150,000,000 Hz, hence different from the rejected values 0 Hz and
200,000,000 Hz.  Each is moreover at least 1 MHz, above any lower range limit of
"a few hundred kHz". -/
theorem configured_frequencies_in_output_range :
    (0 < PARK_FREQ_HZ ∧ PARK_FREQ_HZ ≤ 150000000 ∧
      PARK_FREQ_HZ ≠ 0 ∧ PARK_FREQ_HZ ≠ 200000000 ∧ 1000000 ≤ PARK_FREQ_HZ) ∧
    (0 < CW_BEACON_FREQ_HZ ∧ CW_BEACON_FREQ_HZ ≤ 150000000 ∧
      CW_BEACON_FREQ_HZ ≠ 0 ∧ CW_BEACON_FREQ_HZ ≠ 200000000 ∧
      1000000 ≤ CW_BEACON_FREQ_HZ) ∧
    (0 < QRSS_BEACON_BASE_FREQ_HZ + QRSS_BEACON_FREQ_OFFSET_HZ + FSK_LOW ∧
      QRSS_BEACON_BASE_FREQ_HZ + QRSS_BEACON_FREQ_OFFSET_HZ + FSK_LOW ≤ 150000000 ∧
      QRSS_BEACON_BASE_FREQ_HZ + QRSS_BEACON_FREQ_OFFSET_HZ + FSK_LOW ≠ 0 ∧
      QRSS_BEACON_BASE_FREQ_HZ + QRSS_BEACON_FREQ_OFFSET_HZ + FSK_LOW ≠ 200000000 ∧
      1000000 ≤ QRSS_BEACON_BASE_FREQ_HZ + QRSS_BEACON_FREQ_OFFSET_HZ + FSK_LOW) ∧
    (0 < QRSS_BEACON_BASE_FREQ_HZ + QRSS_BEACON_FREQ_OFFSET_HZ + FSK_HIGH ∧
      QRSS_BEACON_BASE_FREQ_HZ + QRSS_BEACON_FREQ_OFFSET_HZ + FSK_HIGH ≤ 150000000 ∧
      QRSS_BEACON_BASE_FREQ_HZ + QRSS_BEACON_FREQ_OFFSET_HZ + FSK_HIGH ≠ 0 ∧
      QRSS_BEACON_BASE_FREQ_HZ + QRSS_BEACON_FREQ_OFFSET_HZ + FSK_HIGH ≠ 200000000 ∧
      1000000 ≤ QRSS_BEACON_BASE_FREQ_HZ + QRSS_BEACON_FREQ_OFFSET_HZ + FSK_HIGH) := by
  decide

/-- Claim C5: the configured park frequency does not exceed the documented
maximum of 109 MHz, `PARK_FREQ_HZ ≤ 109000000`. -/
theorem park_freq_le_documented_max : PARK_FREQ_HZ ≤ 109000000 := by
  decide

/-- Claim C6: `SI5351BX_XTAL` is a 25 MHz crystal frequency in centi-Hz,
`SI5351BX_XTAL = 25000000 * 100`, an exact multiple of 100, and the PLL A VCO
frequency crystal times `SI5351BX_MSA` is 875 MHz:
`(SI5351BX_XTAL / 100) * SI5351BX_MSA = 875000000` Hz, equivalently
`SI5351BX_XTAL * SI5351BX_MSA = 87500000000` centi-Hz, which is below `2^64`, the
modulus of the `unsigned long long` the product is evaluated in. -/
theorem xtal_centi_hz_and_vco_875mhz :
    SI5351BX_XTAL = 25000000 * 100 ∧ SI5351BX_XTAL % 100 = 0 ∧
    SI5351BX_XTAL / 100 = 25000000 ∧
    (SI5351BX_XTAL / 100) * SI5351BX_MSA = 875000000 ∧
    SI5351BX_XTAL * SI5351BX_MSA = 87500000000 ∧
    SI5351BX_XTAL * SI5351BX_MSA < 2 ^ 64 := by
  decide

/-- Claim C7: the configured post-transmission delay is five minutes,
`POST_TX_DELAY_MS = 5 * 60 * 1000` milliseconds, and it is strictly positive. -/
theorem post_tx_delay_is_five_minutes :
    POST_TX_DELAY_MS = 5 * 60 * 1000 ∧ 0 < POST_TX_DELAY_MS := by
  decide

/-- Claim C8: the configured `QRSS_MESSAGE` follows the documented format.  It is
non-empty; it is two spaces, then a non-empty callsign, then one space; every
callsign character is an uppercase ASCII letter or a decimal digit, none is a
lowercase letter and none is a space.  Hence the run of spaces at the front has
length exactly two and the run of spaces at the end has length exactly one. -/
theorem qrss_message_format :
    QRSS_MESSAGE ≠ "" ∧
    (∃ callsign : List Char,
      QRSS_MESSAGE.toList = ' ' :: ' ' :: callsign ++ [' '] ∧ callsign ≠ [] ∧
      (∀ c ∈ callsign, c.isUpper = true ∨ c.isDigit = true) ∧
      (∀ c ∈ callsign, c.isLower = false ∧ c ≠ ' ')) ∧
    (QRSS_MESSAGE.toList.takeWhile (fun c => c == ' ')).length = 2 ∧
    (QRSS_MESSAGE.toList.reverse.takeWhile (fun c => c == ' ')).length = 1 :=
  ⟨by decide,
    ⟨['V', 'E', '3', 'W', 'M', 'B'], by decide, by decide, by decide, by decide⟩,
    by decide, by decide⟩

end Oberon
